import Mathlib

/-!
Verification of the trucking-operations retrieval layer:

* Record Store Client (`src/MCP/operations/cosmos_store.py`):
  parameterized filtered queries over a document collection, eager
  configuration validation, lazy memoized connection handling.
* Tool Server facade (`src/MCP/operations/app.py`): three tools that
  delegate to the store and downgrade every failure to an empty list.
* Search Index Client (`src/data_generator/search_index.py`):
  create-if-absent index schema, embedding-enriched document upload,
  hybrid keyword + vector search.

External managed services (Cosmos DB, Azure AI Search, the embedding
provider) are modelled as explicit parameters or as explicit state:
the document store is a list of records, the search service a list of
indexes, the embedding provider a function argument.
-/

namespace Trucking

/-- Python truthiness of an optional string: `not value` holds for an
absent variable and for the empty string. -/
def pyTruthy : Option String → Bool
  | none => false
  | some s => s ≠ ""

/-- The single-quote character (code point 39), as used around the
`load_id` literal of the OData filter expression. -/
def squote : String := String.singleton (Char.ofNat 39)

/-- A document in the Cosmos container.  Records are schemaless; the
fields the queries touch (`type`, `load_id`, `exception_type`) are kept
as optional typed fields (a record may lack them), everything else is an
open field map. -/
structure Record where
  id : String
  type : Option String
  load_id : Option String
  exception_type : Option String
  payload : List (String × String)
  deriving DecidableEq, Repr

/-- Semantics of `SELECT * FROM c WHERE c.load_id = @load_id`
(`TruckingOperationsStore.get_load_context`): keep every record whose
`load_id` equals the parameter; a record lacking the field never
compares equal. -/
def query_load_context (contents : List Record) (load_id : String) : List Record :=
  contents.filter (fun c => c.load_id == some load_id)

/-- Semantics of `SELECT * FROM c WHERE c.type = 'exception' AND
c.load_id = @load_id` (`TruckingOperationsStore.get_exceptions`). -/
def query_exceptions (contents : List Record) (load_id : String) : List Record :=
  contents.filter (fun c => c.type == some "exception" && c.load_id == some load_id)

/-- Semantics of `SELECT * FROM c WHERE c.type = 'exception' AND
c.exception_type = @exception_type`
(`TruckingOperationsStore.get_exceptions_by_type`): no `load_id`
condition appears in the query. -/
def query_exceptions_by_type (contents : List Record) (exception_type : String) : List Record :=
  contents.filter (fun c => c.type == some "exception" && c.exception_type == some exception_type)

/-- Concrete exception record used to instantiate the query theorems. -/
def exRecord : Record :=
  { id := "EX-7712", type := some "exception", load_id := some "L-7712",
    exception_type := some "Late Delivery", payload := [] }

/-- Concrete load record used to instantiate the query theorems. -/
def loadRecord : Record :=
  { id := "L-7712", type := some "load", load_id := some "L-7712",
    exception_type := none, payload := [("priority", "High")] }

/-- Claim C2: every record returned by `get_load_context(loadId)` has
`load_id = loadId`; no filtering by the `type` discriminator happens, so
every stored record with that `load_id` is returned; and when nothing
matches the result is the empty list rather than an error. -/
theorem claim_C2 (contents : List Record) (load_id : String) :
    (∀ r ∈ query_load_context contents load_id, r.load_id = some load_id)
    ∧ (∀ r ∈ contents, r.load_id = some load_id →
        r ∈ query_load_context contents load_id)
    ∧ ((∀ r ∈ contents, r.load_id ≠ some load_id) →
        query_load_context contents load_id = []) := by
  refine ⟨?_, ?_, ?_⟩
  · intro r hr
    have := List.mem_filter.mp hr
    simpa using this.2
  · intro r hr hl
    exact List.mem_filter.mpr ⟨hr, by simpa using hl⟩
  · intro h
    simp only [query_load_context, List.filter_eq_nil_iff]
    intro r hr
    simpa using h r hr

/-- Claim C2 witness: in a store holding the load record and the
exception record for load L-7712, `get_load_context("L-7712")` returns
both (in particular the non-exception load record: no type filter). -/
theorem claim_C2_witness :
    loadRecord ∈ query_load_context [loadRecord, exRecord] "L-7712"
    ∧ exRecord ∈ query_load_context [loadRecord, exRecord] "L-7712" :=
  ⟨(claim_C2 [loadRecord, exRecord] "L-7712").2.1 loadRecord (by simp) (by rfl),
   (claim_C2 [loadRecord, exRecord] "L-7712").2.1 exRecord (by simp) (by rfl)⟩

/-- Claim C3: every record in `get_exceptions(loadId)` has
`type = "exception"` and `load_id = loadId`, and every stored record
satisfying both conditions appears in the result. -/
theorem claim_C3 (contents : List Record) (load_id : String) :
    (∀ r ∈ query_exceptions contents load_id,
        r.type = some "exception" ∧ r.load_id = some load_id)
    ∧ (∀ r ∈ contents, r.type = some "exception" → r.load_id = some load_id →
        r ∈ query_exceptions contents load_id) := by
  constructor
  · intro r hr
    have := List.mem_filter.mp hr
    simpa using this.2
  · intro r hr ht hl
    exact List.mem_filter.mpr ⟨hr, by simp [ht, hl]⟩

/-- Claim C3 witness: the exception record for L-7712 is returned and
carries the exception type discriminator and matching load id. -/
theorem claim_C3_witness :
    exRecord ∈ query_exceptions [loadRecord, exRecord] "L-7712" :=
  (claim_C3 [loadRecord, exRecord] "L-7712").2 exRecord (by simp) (by rfl) (by rfl)

/-- Claim C4: every record in `get_exceptions_by_type(t)` has
`type = "exception"` and `exception_type` exactly equal to `t`;
the query places no restriction on `load_id` (every stored exception of
that type appears, whatever its load); hence any two results carry the
same exception type. -/
theorem claim_C4 (contents : List Record) (t : String) :
    (∀ r ∈ query_exceptions_by_type contents t,
        r.type = some "exception" ∧ r.exception_type = some t)
    ∧ (∀ r ∈ contents, r.type = some "exception" → r.exception_type = some t →
        r ∈ query_exceptions_by_type contents t)
    ∧ (∀ r1 ∈ query_exceptions_by_type contents t,
        ∀ r2 ∈ query_exceptions_by_type contents t,
        r1.exception_type = r2.exception_type) := by
  refine ⟨?_, ?_, ?_⟩
  · intro r hr
    have := List.mem_filter.mp hr
    simpa using this.2
  · intro r hr ht he
    exact List.mem_filter.mpr ⟨hr, by simp [ht, he]⟩
  · intro r1 h1 r2 h2
    have e1 := (List.mem_filter.mp h1).2
    have e2 := (List.mem_filter.mp h2).2
    simp only [Bool.and_eq_true, beq_iff_eq] at e1 e2
    rw [e1.2, e2.2]

/-- Claim C4 witness: an exception on another load is still returned by
the cross-partition type query, alongside EX-7712. -/
theorem claim_C4_witness :
    { exRecord with id := "EX-9001", load_id := some "L-9001" }
      ∈ query_exceptions_by_type
          [loadRecord, exRecord, { exRecord with id := "EX-9001", load_id := some "L-9001" }]
          "Late Delivery" :=
  (claim_C4 [loadRecord, exRecord, { exRecord with id := "EX-9001", load_id := some "L-9001" }]
      "Late Delivery").2.1 _ (by simp) (by rfl) (by rfl)

/-- Connection-lifecycle state of `TruckingOperationsStore`:
`client` is the memoized client/container handle (`_client` /
`_container`, identified by a numeric handle), `constructions` counts
how many times a client has been constructed (ghost counter for the
at-most-once property). -/
structure StoreState where
  client : Option Nat
  constructions : Nat
  deriving DecidableEq, Repr

/-- State right after `__init__`: `self._client = None`. -/
def init_store_state : StoreState := { client := none, constructions := 0 }

/-- Model of `_ensure_container`: when `_client is None`, construct the
credential/client/container (a fresh handle) and memoize it; otherwise
leave the state untouched. -/
def ensure_container (s : StoreState) : StoreState :=
  match s.client with
  | some _ => s
  | none => { client := some s.constructions, constructions := s.constructions + 1 }

/-- Health of the external document store: reachable with some contents,
or failing every call with an error (unreachable endpoint, auth failure,
malformed query — any exception raised inside the store client). -/
inductive StoreWorld where
  | up (contents : List Record)
  | down (err : String)
  deriving DecidableEq, Repr

/-- Store method `get_load_context`: ensure the container, then run the
parameterized query; any store failure surfaces as an exception. -/
def store_get_load_context (w : StoreWorld) (s : StoreState) (load_id : String) :
    StoreState × Except String (List Record) :=
  let s' := ensure_container s
  match w with
  | .down e => (s', .error e)
  | .up contents => (s', .ok (query_load_context contents load_id))

/-- Store method `get_exceptions`. -/
def store_get_exceptions (w : StoreWorld) (s : StoreState) (load_id : String) :
    StoreState × Except String (List Record) :=
  let s' := ensure_container s
  match w with
  | .down e => (s', .error e)
  | .up contents => (s', .ok (query_exceptions contents load_id))

/-- Store method `get_exceptions_by_type`. -/
def store_get_exceptions_by_type (w : StoreWorld) (s : StoreState) (exception_type : String) :
    StoreState × Except String (List Record) :=
  let s' := ensure_container s
  match w with
  | .down e => (s', .error e)
  | .up contents => (s', .ok (query_exceptions_by_type contents exception_type))

/-- Facade tool `get_load_context` in `app.py`: delegate to the store;
on any exception, log and return the empty list. -/
def app_get_load_context (w : StoreWorld) (s : StoreState) (load_id : String) :
    StoreState × List Record :=
  match store_get_load_context w s load_id with
  | (s', .ok results) => (s', results)
  | (s', .error _) => (s', [])

/-- Facade tool `get_load_exceptions` in `app.py`. -/
def app_get_load_exceptions (w : StoreWorld) (s : StoreState) (load_id : String) :
    StoreState × List Record :=
  match store_get_exceptions w s load_id with
  | (s', .ok results) => (s', results)
  | (s', .error _) => (s', [])

/-- Facade tool `get_exceptions_by_type` in `app.py`. -/
def app_get_exceptions_by_type (w : StoreWorld) (s : StoreState) (exception_type : String) :
    StoreState × List Record :=
  match store_get_exceptions_by_type w s exception_type with
  | (s', .ok results) => (s', results)
  | (s', .error _) => (s', [])

/-- Claim C1: for each facade operation and every input, if the
underlying store call fails the facade returns the empty list (never
propagating the fault), and if it succeeds the facade returns the
store's query result unchanged. -/
theorem claim_C1 (s : StoreState) (w : StoreWorld) (load_id exception_type : String) :
    (∀ e, w = .down e →
        (app_get_load_context w s load_id).2 = []
        ∧ (app_get_load_exceptions w s load_id).2 = []
        ∧ (app_get_exceptions_by_type w s exception_type).2 = [])
    ∧ (∀ contents, w = .up contents →
        (app_get_load_context w s load_id).2 = query_load_context contents load_id
        ∧ (app_get_load_exceptions w s load_id).2 = query_exceptions contents load_id
        ∧ (app_get_exceptions_by_type w s exception_type).2
            = query_exceptions_by_type contents exception_type) := by
  constructor
  · rintro e rfl
    exact ⟨rfl, rfl, rfl⟩
  · rintro contents rfl
    exact ⟨rfl, rfl, rfl⟩

/-- Claim C1 witness: with an unreachable store each facade operation
returns the empty list; with a reachable store holding the two seed
records, `get_load_context` returns the store result unchanged. -/
theorem claim_C1_witness :
    (app_get_load_context (.down "ServiceRequestError") init_store_state "L-7712").2 = []
    ∧ (app_get_exceptions_by_type (.up [loadRecord, exRecord]) init_store_state
        "Late Delivery").2
        = query_exceptions_by_type [loadRecord, exRecord] "Late Delivery" :=
  ⟨((claim_C1 init_store_state (.down "ServiceRequestError") "L-7712" "t").1
      "ServiceRequestError" rfl).1,
   ((claim_C1 init_store_state (.up [loadRecord, exRecord]) "L" "Late Delivery").2
      [loadRecord, exRecord] rfl).2.2⟩

/-- One invocation of the store client, as issued by the facade. -/
inductive StoreOp where
  | getLoadContext (load_id : String)
  | getExceptions (load_id : String)
  | getExceptionsByType (exception_type : String)
  deriving DecidableEq, Repr

/-- Run one store method, returning the updated connection state and the
call's outcome. -/
def run_store_op (w : StoreWorld) (s : StoreState) :
    StoreOp → StoreState × Except String (List Record)
  | .getLoadContext l => store_get_load_context w s l
  | .getExceptions l => store_get_exceptions w s l
  | .getExceptionsByType t => store_get_exceptions_by_type w s t

/-- Run a sequence of store calls, threading the connection state. -/
def run_store_ops (w : StoreWorld) (s : StoreState) : List StoreOp → StoreState
  | [] => s
  | op :: rest => run_store_ops w (run_store_op w s op).1 rest

theorem run_store_op_fst (w : StoreWorld) (s : StoreState) (op : StoreOp) :
    (run_store_op w s op).1 = ensure_container s := by
  cases op <;> cases w <;> rfl

theorem run_store_ops_fixed (w : StoreWorld) (ops : List StoreOp) :
    run_store_ops w { client := some 0, constructions := 1 } ops
      = { client := some 0, constructions := 1 } := by
  induction ops with
  | nil => rfl
  | cons op rest ih =>
      rw [run_store_ops, run_store_op_fst]
      exact ih

/-- Claim C8: starting from a freshly constructed store, any sequence of
calls to the three query methods constructs the client at most once;
after a first call the state is the memoized handle 0 with exactly one
construction, and it stays that way for the whole sequence. -/
theorem claim_C8 (w : StoreWorld) (ops : List StoreOp) :
    (run_store_ops w init_store_state ops).constructions ≤ 1
    ∧ (ops ≠ [] →
        run_store_ops w init_store_state ops
          = { client := some 0, constructions := 1 }) := by
  cases ops with
  | nil => exact ⟨Nat.zero_le 1, fun h => absurd rfl h⟩
  | cons op rest =>
      have hstep : (run_store_op w init_store_state op).1
          = { client := some 0, constructions := 1 } := by
        rw [run_store_op_fst]; rfl
      have hrun : run_store_ops w init_store_state (op :: rest)
          = { client := some 0, constructions := 1 } := by
        rw [run_store_ops, hstep, run_store_ops_fixed]
      exact ⟨by rw [hrun], fun _ => hrun⟩

/-- Claim C8 witness: three successive calls against a live store leave
exactly one constructed client, handle 0. -/
theorem claim_C8_witness :
    run_store_ops (.up [exRecord]) init_store_state
        [StoreOp.getLoadContext "L-7712", StoreOp.getExceptions "L-7712",
         StoreOp.getExceptionsByType "Breakdown"]
      = { client := some 0, constructions := 1 } :=
  (claim_C8 (.up [exRecord])
      [StoreOp.getLoadContext "L-7712", StoreOp.getExceptions "L-7712",
       StoreOp.getExceptionsByType "Breakdown"]).2 (List.cons_ne_nil _ _)

/-- The three environment variables read by
`TruckingOperationsStore.__init__`, paired with their values under the
given environment. -/
def cosmos_env_pairs (env : String → Option String) : List (String × Option String) :=
  [("COSMOS_ENDPOINT", env "COSMOS_ENDPOINT"),
   ("COSMOS_DATABASE", env "COSMOS_DATABASE"),
   ("COSMOS_CONTAINER", env "COSMOS_CONTAINER")]

/-- The `missing` list computed in `__init__`: names whose value is
falsy (absent or empty). -/
def cosmos_missing (env : String → Option String) : List String :=
  ((cosmos_env_pairs env).filter (fun p => !pyTruthy p.2)).map (·.1)

/-- Configuration held by a successfully constructed
`TruckingOperationsStore`, together with its connection state. -/
structure TruckingOperationsStore where
  endpoint : String
  db_name : String
  container_name : String
  conn : StoreState
  deriving DecidableEq, Repr

/-- Model of `TruckingOperationsStore.__init__`: read the three
environment variables; if any is absent or empty, raise a `ValueError`
naming every missing one; otherwise succeed with `_client = None`
(no store connection is opened). -/
def TruckingOperationsStore.init (env : String → Option String) :
    Except String TruckingOperationsStore :=
  let endpoint := env "COSMOS_ENDPOINT"
  let db_name := env "COSMOS_DATABASE"
  let container_name := env "COSMOS_CONTAINER"
  if pyTruthy endpoint && pyTruthy db_name && pyTruthy container_name then
    .ok { endpoint := endpoint.getD "", db_name := db_name.getD "",
          container_name := container_name.getD "", conn := init_store_state }
  else
    .error ("Missing environment variables: " ++ String.intercalate ", " (cosmos_missing env))

theorem cosmos_missing_nil_iff (env : String → Option String) :
    cosmos_missing env = []
      ↔ (pyTruthy (env "COSMOS_ENDPOINT")
          && pyTruthy (env "COSMOS_DATABASE")
          && pyTruthy (env "COSMOS_CONTAINER")) = true := by
  cases h1 : pyTruthy (env "COSMOS_ENDPOINT") <;>
    cases h2 : pyTruthy (env "COSMOS_DATABASE") <;>
      cases h3 : pyTruthy (env "COSMOS_CONTAINER") <;>
        simp [cosmos_missing, cosmos_env_pairs, h1, h2, h3]

/-- Claim C7: constructing the store with any of the three configuration
values missing or empty fails at construction time with an error naming
exactly the missing values; with all three non-empty it succeeds, and
the resulting state has no client constructed (the store was not
contacted). -/
theorem claim_C7 (env : String → Option String) :
    (cosmos_missing env ≠ [] →
        TruckingOperationsStore.init env
          = .error ("Missing environment variables: "
              ++ String.intercalate ", " (cosmos_missing env)))
    ∧ (∀ name, name ∈ cosmos_missing env
        ↔ (name ∈ ["COSMOS_ENDPOINT", "COSMOS_DATABASE", "COSMOS_CONTAINER"]
            ∧ pyTruthy (env name) = false))
    ∧ (cosmos_missing env = [] →
        ∃ store, TruckingOperationsStore.init env = .ok store
          ∧ store.conn.client = none ∧ store.conn.constructions = 0) := by
  refine ⟨?_, ?_, ?_⟩
  · intro hmiss
    have hcond :
        (pyTruthy (env "COSMOS_ENDPOINT")
          && pyTruthy (env "COSMOS_DATABASE")
          && pyTruthy (env "COSMOS_CONTAINER")) = false := by
      cases hb : (pyTruthy (env "COSMOS_ENDPOINT")
          && pyTruthy (env "COSMOS_DATABASE")
          && pyTruthy (env "COSMOS_CONTAINER"))
      · rfl
      · exact absurd ((cosmos_missing_nil_iff env).mpr hb) hmiss
    simp [TruckingOperationsStore.init, hcond]
  · intro name
    constructor
    · intro hmem
      rcases List.mem_map.mp hmem with ⟨p, hp, hname⟩
      have hval := (List.mem_filter.mp hp).2
      have hpmem := (List.mem_filter.mp hp).1
      subst hname
      simp only [cosmos_env_pairs, List.mem_cons] at hpmem
      rcases hpmem with h | h | h | h
      · subst h; exact ⟨by simp, by simpa using hval⟩
      · subst h; exact ⟨by simp, by simpa using hval⟩
      · subst h; exact ⟨by simp, by simpa using hval⟩
      · exact absurd h (List.not_mem_nil p)
    · rintro ⟨hmem, hfalse⟩
      simp only [List.mem_cons] at hmem
      rcases hmem with rfl | rfl | rfl | hmem
      · refine List.mem_map.mpr ⟨("COSMOS_ENDPOINT", env "COSMOS_ENDPOINT"),
          List.mem_filter.mpr ⟨?_, ?_⟩, rfl⟩ <;> simp [cosmos_env_pairs, hfalse]
      · refine List.mem_map.mpr ⟨("COSMOS_DATABASE", env "COSMOS_DATABASE"),
          List.mem_filter.mpr ⟨?_, ?_⟩, rfl⟩ <;> simp [cosmos_env_pairs, hfalse]
      · refine List.mem_map.mpr ⟨("COSMOS_CONTAINER", env "COSMOS_CONTAINER"),
          List.mem_filter.mpr ⟨?_, ?_⟩, rfl⟩ <;> simp [cosmos_env_pairs, hfalse]
      · exact absurd hmem (List.not_mem_nil _)
  · intro hnil
    have hcond := (cosmos_missing_nil_iff env).mp hnil
    refine ⟨{ endpoint := (env "COSMOS_ENDPOINT").getD "",
              db_name := (env "COSMOS_DATABASE").getD "",
              container_name := (env "COSMOS_CONTAINER").getD "",
              conn := init_store_state }, ?_, rfl, rfl⟩
    simp [TruckingOperationsStore.init, hcond]

/-- Claim C7 witness: with an empty endpoint and a missing database the
constructor fails naming both (and only) those two variables, and with
all three present it succeeds without constructing a client. -/
theorem claim_C7_witness :
    TruckingOperationsStore.init
        (fun name => if name = "COSMOS_ENDPOINT" then some ""
          else if name = "COSMOS_CONTAINER" then some "records" else none)
      = .error "Missing environment variables: COSMOS_ENDPOINT, COSMOS_DATABASE"
    ∧ ∃ store,
        TruckingOperationsStore.init (fun _ => some "x") = .ok store
          ∧ store.conn.client = none ∧ store.conn.constructions = 0 := by
  constructor
  · have h := (claim_C7 (fun name => if name = "COSMOS_ENDPOINT" then some ""
        else if name = "COSMOS_CONTAINER" then some "records" else none)).1 (by decide)
    rw [h]
    rfl
  · exact (claim_C7 (fun _ => some "x")).2.2 (by decide)

/-- One field declaration of the search index schema. -/
structure SearchFieldDef where
  name : String
  edm_type : String
  key : Bool := false
  filterable : Bool := false
  sortable : Bool := false
  analyzer_name : Option String := none
  vector_search_dimensions : Option Nat := none
  vector_search_profile_name : Option String := none
  deriving DecidableEq, Repr

/-- HNSW algorithm configuration of the vector search section. -/
structure HnswConfig where
  name : String
  kind : String
  metric : String
  deriving DecidableEq, Repr

/-- Vector search profile of the schema. -/
structure VectorProfileDef where
  name : String
  algorithm_configuration_name : String
  vectorizer_name : String
  deriving DecidableEq, Repr

/-- Azure OpenAI vectorizer reference of the schema. -/
structure VectorizerDef where
  vectorizer_name : String
  kind : String
  resource_url : String
  deployment_name : String
  model_name : String
  auth_identity_resource_id : String
  deriving DecidableEq, Repr

/-- Vector search section of the schema. -/
structure VectorSearchDef where
  algorithms : List HnswConfig
  profiles : List VectorProfileDef
  vectorizers : List VectorizerDef
  deriving DecidableEq, Repr

/-- A search index as held by the search service: name plus schema. -/
structure SearchIndexDef where
  name : String
  fields : List SearchFieldDef
  vector_search : VectorSearchDef
  deriving DecidableEq, Repr

/-- Declared dimension of `content_vector` (text-embedding-3-large). -/
def VECTOR_DIMENSIONS : Nat := 3072

/-- The schema declared by `create_index_if_not_exists` when the index
is absent: key field `id`, filterable/sortable `doc_type`, filterable
`load_id`, analyzed `content`, and the `content_vector` field bound to
the cosine-metric HNSW profile with an external vectorizer reference. -/
def trucking_index_schema (index_name openai_endpoint embedding_deployment
    client_resource_id : String) : SearchIndexDef :=
  { name := index_name,
    fields :=
      [{ name := "id", edm_type := "Edm.String", key := true },
       { name := "doc_type", edm_type := "Edm.String", filterable := true, sortable := true },
       { name := "load_id", edm_type := "Edm.String", filterable := true },
       { name := "content", edm_type := "Edm.String", analyzer_name := some "en.lucene" },
       { name := "content_vector", edm_type := "Collection(Edm.Single)",
         vector_search_dimensions := some VECTOR_DIMENSIONS,
         vector_search_profile_name := some "vector-profile" }],
    vector_search :=
      { algorithms := [{ name := "hnsw-config", kind := "hnsw", metric := "cosine" }],
        profiles := [{ name := "vector-profile",
                       algorithm_configuration_name := "hnsw-config",
                       vectorizer_name := "my-vectorizer" }],
        vectorizers := [{ vectorizer_name := "my-vectorizer", kind := "azureOpenAI",
                          resource_url := openai_endpoint,
                          deployment_name := embedding_deployment,
                          model_name := embedding_deployment,
                          auth_identity_resource_id := client_resource_id }] } }

/-- Model of `TruckingSearchIndex.create_index_if_not_exists` over the
search service state (its list of indexes): list the existing index
names; if the target name is present return unchanged (`false` = no
schema creation); otherwise create the index (`true`). -/
def create_index_if_not_exists (index_name openai_endpoint embedding_deployment
    client_resource_id : String) (indexes : List SearchIndexDef) :
    List SearchIndexDef × Bool :=
  let existing_indexes := indexes.map (·.name)
  if index_name ∈ existing_indexes then
    (indexes, false)
  else
    (indexes ++ [trucking_index_schema index_name openai_endpoint embedding_deployment
        client_resource_id], true)

/-- Claim C5: `create_index_if_not_exists` is idempotent — if the target
name is already listed the call is a no-op creating nothing, and in any
state a second successive call never performs the schema creation, so
two calls create at most once. -/
theorem claim_C5 (index_name e d r : String) (indexes : List SearchIndexDef) :
    (index_name ∈ indexes.map (·.name) →
        create_index_if_not_exists index_name e d r indexes = (indexes, false))
    ∧ (create_index_if_not_exists index_name e d r
          (create_index_if_not_exists index_name e d r indexes).1
        = ((create_index_if_not_exists index_name e d r indexes).1, false)) := by
  constructor
  · intro hmem
    simp [create_index_if_not_exists, hmem]
  · by_cases hmem : index_name ∈ indexes.map (·.name)
    · simp [create_index_if_not_exists, hmem]
    · have hfst : (create_index_if_not_exists index_name e d r indexes).1
          = indexes ++ [trucking_index_schema index_name e d r] := by
        simp [create_index_if_not_exists, hmem]
      have hmem2 : index_name
          ∈ (indexes ++ [trucking_index_schema index_name e d r]).map (·.name) := by
        simp [trucking_index_schema]
      rw [hfst]
      simp [create_index_if_not_exists, hmem2]
      intro _
      simp [trucking_index_schema]

/-- Claim C5 witness: with the target index already present the call is
a no-op, and calling twice from an empty service creates once then
no-ops. -/
theorem claim_C5_witness :
    create_index_if_not_exists "trucking-index" "ep" "dep" "rid"
        [trucking_index_schema "trucking-index" "ep" "dep" "rid"]
      = ([trucking_index_schema "trucking-index" "ep" "dep" "rid"], false)
    ∧ create_index_if_not_exists "trucking-index" "ep" "dep" "rid"
        (create_index_if_not_exists "trucking-index" "ep" "dep" "rid" []).1
      = ((create_index_if_not_exists "trucking-index" "ep" "dep" "rid" []).1, false) :=
  ⟨(claim_C5 "trucking-index" "ep" "dep" "rid"
      [trucking_index_schema "trucking-index" "ep" "dep" "rid"]).1
      (by simp [trucking_index_schema]),
   (claim_C5 "trucking-index" "ep" "dep" "rid" []).2⟩

/-- Input document shape expected by `upload_documents`. -/
structure SearchDocIn where
  id : String
  doc_type : String
  load_id : String
  content : String
  deriving DecidableEq, Repr

/-- Document as uploaded: input fields plus the computed
`content_vector`. -/
structure EnrichedDoc where
  id : String
  doc_type : String
  load_id : String
  content : String
  content_vector : List Int
  deriving DecidableEq, Repr

/-- The `enriched_docs` comprehension of `upload_documents`: zip the
inputs with their embeddings and attach each vector. -/
def enrich_docs (documents : List SearchDocIn) (embeddings : List (List Int)) :
    List EnrichedDoc :=
  (documents.zip embeddings).map
    (fun p => { id := p.1.id, doc_type := p.1.doc_type, load_id := p.1.load_id,
                content := p.1.content, content_vector := p.2 })

/-- Observable trace of one `upload_documents` call: the text batches
sent to the embedder, the document batches sent to the search service,
and the outcome (`error n` models `RuntimeError` with the count `n` of
failed documents). -/
structure UploadTrace where
  embed_calls : List (List String)
  upload_calls : List (List EnrichedDoc)
  outcome : Except Nat Unit
  deriving Repr

/-- Model of `TruckingSearchIndex.upload_documents`, parameterized by
the embedding provider and by the search service's per-document success
verdicts: empty input returns immediately; otherwise embed all contents,
enrich, upload, and raise with the count of failed documents when any
upload failed. -/
def upload_documents (embed : List String → List (List Int))
    (svc_verdicts : List EnrichedDoc → List Bool)
    (documents : List SearchDocIn) : UploadTrace :=
  if documents.isEmpty then
    { embed_calls := [], upload_calls := [], outcome := .ok () }
  else
    let texts := documents.map (·.content)
    let embeddings := embed texts
    let enriched_docs := enrich_docs documents embeddings
    let result := svc_verdicts enriched_docs
    let failed := result.filter (fun succeeded => !succeeded)
    { embed_calls := [texts], upload_calls := [enriched_docs],
      outcome := if failed.isEmpty then .ok () else .error failed.length }

/-- Claim C6: `upload_documents` on an empty list is a no-op — no
embedding computed, no upload issued, success; on a non-empty list, if
any per-document verdict fails the whole call fails carrying the number
of failed documents, and if all succeed the call succeeds. -/
theorem claim_C6 (embed : List String → List (List Int))
    (svc_verdicts : List EnrichedDoc → List Bool) (documents : List SearchDocIn) :
    (documents = [] →
        upload_documents embed svc_verdicts documents
          = { embed_calls := [], upload_calls := [], outcome := .ok () })
    ∧ (documents ≠ [] →
        let enriched := enrich_docs documents (embed (documents.map (·.content)))
        let failed_count :=
          ((svc_verdicts enriched).filter (fun succeeded => !succeeded)).length
        (failed_count = 0 →
            (upload_documents embed svc_verdicts documents).outcome = .ok ())
        ∧ (0 < failed_count →
            (upload_documents embed svc_verdicts documents).outcome
              = .error failed_count)) := by
  constructor
  · rintro rfl
    rfl
  · intro hne
    have hemp : documents.isEmpty = false := by
      simpa [List.isEmpty_iff] using hne
    constructor
    · intro hcount
      have hfe := List.length_eq_zero.mp hcount
      simp only [upload_documents, hemp, Bool.false_eq_true, if_false]
      simp [hfe]
    · intro hcount
      simp only [upload_documents, hemp, Bool.false_eq_true, if_false]
      have hnil : ¬ ((svc_verdicts (enrich_docs documents
          (embed (documents.map (·.content))))).filter
          (fun succeeded => !succeeded)).isEmpty = true := by
        simp only [List.isEmpty_iff_length_eq_zero]
        omega
      simp only [hnil, if_false]
      rfl

/-- Claim C6 witness: uploading no documents is a no-op; uploading two
documents where the service fails one of them raises with count 1. -/
theorem claim_C6_witness :
    upload_documents (fun ts => ts.map (fun _ => [0])) (fun ds => ds.map (fun _ => true)) []
      = { embed_calls := [], upload_calls := [], outcome := .ok () }
    ∧ (upload_documents (fun ts => ts.map (fun _ => [0]))
        (fun _ => [true, false])
        [{ id := "d1", doc_type := "contract", load_id := "L-7712", content := "a" },
         { id := "d2", doc_type := "sla", load_id := "L-7712", content := "b" }]).outcome
      = .error 1 :=
  ⟨(claim_C6 (fun ts => ts.map (fun _ => [0])) (fun ds => ds.map (fun _ => true)) []).1 rfl,
   ((claim_C6 (fun ts => ts.map (fun _ => [0])) (fun _ => [true, false])
      [{ id := "d1", doc_type := "contract", load_id := "L-7712", content := "a" },
       { id := "d2", doc_type := "sla", load_id := "L-7712", content := "b" }]).2
      (by simp)).2 (by decide)⟩

/-- One vector query as passed to the search service. -/
structure VectorQueryDef where
  vector : List Int
  k : Nat
  fields : String
  deriving DecidableEq, Repr

/-- The request `TruckingSearchIndex.search` issues to the search
service. -/
structure SearchRequest where
  search_text : String
  filter : Option String
  vector_queries : List VectorQueryDef
  top : Nat
  deriving DecidableEq, Repr

/-- A raw hit returned by the search service: the stored fields plus the
service's relevance score. -/
structure SearchHit where
  id : String
  doc_type : String
  load_id : String
  content : String
  content_vector : List Int
  score : Int
  deriving DecidableEq, Repr

/-- The per-result projection returned by `search`. -/
structure SearchResultOut where
  id : String
  doc_type : String
  load_id : String
  content : String
  score : Int
  deriving DecidableEq, Repr

/-- Request construction of `TruckingSearchIndex.search`: embed the
query (one batch of one text, taking its first vector), build the
`load_id eq` filter only when `load_id` is truthy (Python `if load_id`:
absent and empty string both yield no filter), and ask for `top` results
with one `k = top` vector query over `content_vector`. -/
def search_request (embed : List String → List (List Int)) (query : String)
    (load_id : Option String) (top : Nat) : SearchRequest :=
  let query_vector := (embed [query]).headD []
  let filter_expr :=
    if pyTruthy load_id then
      some ("load_id eq " ++ squote ++ load_id.getD "" ++ squote)
    else none
  { search_text := query, filter := filter_expr,
    vector_queries := [{ vector := query_vector, k := top, fields := "content_vector" }],
    top := top }

/-- Model of `TruckingSearchIndex.search`, parameterized by the
embedding provider and the search service: issue the request and project
each hit to `id`, `doc_type`, `load_id`, `content`, `score`. -/
def search (embed : List String → List (List Int))
    (svc : SearchRequest → List SearchHit) (query : String)
    (load_id : Option String) (top : Nat) : List SearchResultOut :=
  let req := search_request embed query load_id top
  (svc req).map
    (fun r => { id := r.id, doc_type := r.doc_type, load_id := r.load_id,
                content := r.content, score := r.score })

/-- Embedding provider returning a fixed vector, used only to
instantiate search theorems on concrete inputs. -/
def const_embed : List String → List (List Int) :=
  fun texts => texts.map (fun _ => [1])

/-- Claim C9 counterexample: the claim says the `load_id` pre-filter is
applied exactly when `loadId` is provided; but at
`search(query = "late loads", load_id = "" (provided), top = 5)` the
request carries no filter at all, because the code tests Python
truthiness rather than presence. -/
theorem claim_C9_counterexample :
    (Option.some "").isSome = true
    ∧ (search_request const_embed "late loads" (some "") 5).filter = none := by
  constructor
  · rfl
  · rfl

/-- Claim C9 (amended: the pre-filter is applied exactly when a
non-empty `loadId` is provided): `search` computes one query embedding,
issues a request with `search_text` the query, one vector query with
`k = top` on `content_vector` holding that embedding, `top` as the
result cap, the `load_id eq` filter exactly for non-empty provided
`loadId` and no filter when omitted; and, provided the service honors
the `top` cap, returns at most `top` results, each the projection of a
service hit to `id`, `doc_type`, `load_id`, `content`, `score`. -/
theorem claim_C9 (embed : List String → List (List Int))
    (svc : SearchRequest → List SearchHit) (query : String)
    (load_id : Option String) (top : Nat)
    (hsvc : ∀ req, (svc req).length ≤ req.top) :
    (search_request embed query load_id top).search_text = query
    ∧ (search_request embed query load_id top).top = top
    ∧ (search_request embed query load_id top).vector_queries
        = [{ vector := (embed [query]).headD [], k := top, fields := "content_vector" }]
    ∧ (∀ s, load_id = some s → s ≠ "" →
        (search_request embed query load_id top).filter
          = some ("load_id eq " ++ squote ++ s ++ squote))
    ∧ (load_id = none → (search_request embed query load_id top).filter = none)
    ∧ (search embed svc query load_id top).length ≤ top
    ∧ search embed svc query load_id top
        = (svc (search_request embed query load_id top)).map
            (fun r => { id := r.id, doc_type := r.doc_type, load_id := r.load_id,
                        content := r.content, score := r.score }) := by
  refine ⟨rfl, rfl, rfl, ?_, ?_, ?_, rfl⟩
  · rintro s rfl hs
    simp [search_request, pyTruthy, hs]
  · rintro rfl
    rfl
  · have hlen := hsvc (search_request embed query load_id top)
    simpa [search] using hlen

/-- Claim C9 witness: with a one-hit service honoring the cap, a search
scoped to load L-7712 issues the expected filter, a `k = 3` vector
query, and returns the projected hit. -/
theorem claim_C9_witness :
    (search_request const_embed "late arrival" (some "L-7712") 3).filter
      = some ("load_id eq " ++ squote ++ "L-7712" ++ squote)
    ∧ (search const_embed
        (fun req => [{ id := "d1", doc_type := "contract", load_id := "L-7712",
                       content := "late arrival terms", content_vector := [1],
                       score := 7 }].take req.top)
        "late arrival" (some "L-7712") 3).length ≤ 3 :=
  ⟨((claim_C9 const_embed (fun _ => []) "late arrival" (some "L-7712") 3
      (fun _ => Nat.zero_le _)).2.2.2.1 "L-7712" rfl (by decide)),
   ((claim_C9 const_embed
      (fun req => [{ id := "d1", doc_type := "contract", load_id := "L-7712",
                     content := "late arrival terms", content_vector := [1],
                     score := 7 }].take req.top)
      "late arrival" (some "L-7712") 3
      (fun req => by simp)).2.2.2.2.2.1)⟩

/-- Claim C10: a provided but empty `load_id` behaves exactly like an
omitted one — the whole search, for any embedder and any service, is
identical with `load_id = ""` and with no `load_id`. -/
theorem claim_C10 (embed : List String → List (List Int))
    (svc : SearchRequest → List SearchHit) (query : String) (top : Nat) :
    search embed svc query (some "") top = search embed svc query none top := by
  rfl

end Trucking
